import Mathlib

/-!
Verification of the SubtleCrypto dispatch layer (src/SubtleCrypto.js).

The file shallowly embeds the dispatcher: pure data models the JavaScript
values involved (keys, algorithm descriptors, byte buffers, errors), the
external modules the dispatcher requires (the algorithm registry
`supportedAlgorithms`, the provider operations reached through normalized
algorithm objects, and the `JsonWebKey` constructor) are parameters, and
each public method becomes a Lean function from those parameters and the
call arguments to the settled state of the promise the method returns.
Promise semantics are embedded explicitly: an exception thrown inside a
promise executor rejects the promise; a rejection flowing through a
`then` chain with no rejection handler leaves the outer promise pending.
-/

/-- Byte buffers (`Uint8Array` / `ArrayBuffer` contents) as lists of bytes. -/
abbrev Bytes := List Nat

/-- The JavaScript error values that SubtleCrypto constructs or forwards:
`InvalidAccessError` and `NotSupportedError` come from the local errors
module, `SyntaxError` and `TypeError` are host errors.  Provider-raised
errors are arbitrary values of this type. -/
inductive JsError : Type where
  | InvalidAccessError (msg : String)
  | NotSupportedError (algName : String)
  | SyntaxError
  | TypeError (msg : String)
deriving DecidableEq, Repr

/-- The settled state of a single-shot promise: fulfilled with a value,
rejected with an error, or pending forever (never settles). -/
inductive Promise (α : Type) : Type where
  | resolved (v : α)
  | rejected (e : JsError)
  | pending
deriving DecidableEq, Repr

/-- The outcome of calling a JavaScript function synchronously: it either
returns a value or throws an error. -/
inductive JsOutcome (α : Type) : Type where
  | ret (v : α)
  | thrown (e : JsError)
deriving DecidableEq, Repr

/-- A loosely-typed JavaScript value, used for fields (such as
`CryptoKey.extractable`) whose checks in the source use strict equality
against a particular boolean and therefore distinguish `false` from
`undefined`, `null`, numbers and strings. -/
inductive JsVal : Type where
  | undef
  | null
  | bool (b : Bool)
  | num (n : Int)
  | str (s : String)
deriving DecidableEq, Repr

/-- A caller-supplied algorithm descriptor (the loose `AlgorithmIdentifier`
object): a name plus caller parameters, left abstract as a name here. -/
structure AlgDescriptor : Type where
  name : String
deriving DecidableEq, Repr

/-- The canonical normalized algorithm record returned by
`supportedAlgorithms.normalize`.  `hasWrapKey` and `hasEncrypt` model the
duck-typed property probes `normalizedAlgorithm['wrapKey']` and
`normalizedAlgorithm['encrypt']` performed by `SubtleCrypto.wrapKey`. -/
structure NormalizedAlgorithm : Type where
  name : String
  hasWrapKey : Bool
  hasEncrypt : Bool
deriving DecidableEq, Repr

/-- The algorithm argument a provider operation receives: either the
caller's original loose descriptor or a normalized algorithm record.  The
source can pass either, so the provider signature admits both and records
which one was passed. -/
inductive AlgParam : Type where
  | raw (d : AlgDescriptor)
  | canon (n : NormalizedAlgorithm)
deriving DecidableEq, Repr

/-- A CryptoKey handle: its `type` string, its loosely-typed `extractable`
field, the normalized algorithm record stored on it, and its usage list.
The opaque key material never reaches the dispatcher and is omitted. -/
structure CryptoKey : Type where
  type : String
  extractable : JsVal
  algorithm : NormalizedAlgorithm
  usages : List String
deriving DecidableEq, Repr

/-- A CryptoKeyPair as produced by a provider generateKey. -/
structure CryptoKeyPair : Type where
  publicKey : CryptoKey
  privateKey : CryptoKey
deriving DecidableEq, Repr

/-- The result of a provider generateKey: a single key or a key pair
(the source branches on `instanceof CryptoKey` / `instanceof CryptoKeyPair`). -/
inductive GenResult : Type where
  | key (k : CryptoKey)
  | pair (kp : CryptoKeyPair)
deriving DecidableEq, Repr

/-- Modelled from the spec: the `JsonWebKey` class (src/keys/JsonWebKey,
not present under src/) is the portable key-interchange record — key type,
key material, algorithm hint, extractability hint and operation hints. -/
structure JsonWebKey : Type where
  kty : String
  k : String
  alg : String
  ext : Bool
  key_ops : List String
deriving DecidableEq, Repr

/-- The `keyData` argument of importKey: a raw byte buffer, a JsonWebKey
instance, or some other plain object (no `slice` method, not a JWK). -/
inductive KeyData : Type where
  | buf (b : Bytes)
  | jwkRecord (j : JsonWebKey)
  | plainObj
deriving DecidableEq, Repr

/-- The `instanceof JsonWebKey` test on a keyData value. -/
def KeyData.isJsonWebKey : KeyData → Bool
  | .jwkRecord _ => true
  | _ => false

/-- The result of a provider exportKey: raw bytes or an interchange record,
depending on the requested format. -/
inductive ExportResult : Type where
  | bytes (b : Bytes)
  | record (j : JsonWebKey)
deriving DecidableEq, Repr

/-- Modelled from the spec: the recognized operation-name set
(src/keys/recognizedKeyUsages, not present under src/). -/
def recognizedKeyUsages : List String :=
  ["encrypt", "decrypt", "sign", "verify", "deriveKey", "deriveBits",
   "wrapKey", "unwrapKey"]

/-- Modelled from the spec: `recognizedKeyUsages.normalize`, which
deduplicates the caller-supplied usage list and restricts it to the
recognized operation-name set. -/
def normalizeKeyUsages (usages : List String) : List String :=
  (usages.filter (fun u => recognizedKeyUsages.contains u)).dedup

/-- Modelled from the spec: the algorithm registry module
(src/algorithms, not present under src/).  `normalize` maps an operation
name and a descriptor to a canonical record or an error
(`normalizedAlgorithm instanceof Error` in the source); `exportKeyRegistered`
models the truthiness of `supportedAlgorithms['exportKey'][name]`. -/
structure Registry : Type where
  normalize : String → AlgDescriptor → Except JsError NormalizedAlgorithm
  exportKeyRegistered : String → Bool

/-- The provider operations reachable through normalized algorithm objects
and through `key.algorithm`.  Operations that the source calls inside a
promise executor may throw synchronously (`JsOutcome`) and may return an
asynchronous value (`Promise`). -/
structure Provider : Type where
  encrypt : AlgParam → CryptoKey → Bytes → JsOutcome (Promise Bytes)
  decrypt : AlgParam → CryptoKey → Bytes → JsOutcome (Promise Bytes)
  sign : CryptoKey → Bytes → JsOutcome (Promise Bytes)
  verify : CryptoKey → Bytes → Bytes → JsOutcome (Promise Bool)
  digest : AlgParam → Bytes → JsOutcome (Promise Bytes)
  generateKey : AlgDescriptor → Bool → List String → JsOutcome GenResult
  importKey : String → KeyData → AlgDescriptor → Bool → List String → JsOutcome CryptoKey
  exportKey : String → CryptoKey → JsOutcome ExportResult
  wrapKey : AlgParam → CryptoKey → Bytes → JsOutcome (Promise Bytes)

/-- Settling a promise executor that calls one provider operation and
resolves its result: a synchronous throw rejects the promise (executor
semantics); `resolve` on a returned promise adopts that promise. -/
def executorSettle {α : Type} : JsOutcome (Promise α) → Promise α
  | .thrown e => .rejected e
  | .ret pr => pr

/-- Settling the tail of wrapKey's inner chain
`.then(cb).then(resolve)` with no rejection handler anywhere: a throw
inside the callback or a rejection of the returned promise never reaches
`resolve` or `reject`, so the outer promise stays pending; only a
fulfilled inner promise resolves the outer one. -/
def wrapThenSettle : JsOutcome (Promise Bytes) → Promise Bytes
  | .thrown _ => .pending
  | .ret (.resolved v) => .resolved v
  | .ret (.rejected _) => .pending
  | .ret .pending => .pending

/-- ECMAScript semantics of `new Promise()` with no executor argument:
the Promise constructor throws a TypeError synchronously because the
executor is not callable. -/
def newPromiseNoExecutor (α : Type) : JsOutcome (Promise α) :=
  .thrown (.TypeError "Promise resolver undefined is not a function")

/-- SubtleCrypto.encrypt (src/SubtleCrypto.js lines 28-50): copy the data,
normalize for the encrypt operation, reject on normalization failure, then
inside the executor check algorithm-name match and the encrypt usage
(throws reject the promise), and finally call the provider encrypt method
of the normalized record, passing the caller's original `algorithm` value
(line 46), the key and the copied data. -/
def SubtleCrypto.encrypt (reg : Registry) (p : Provider)
    (algorithm : AlgDescriptor) (key : CryptoKey) (data : Bytes) :
    Promise Bytes :=
  match reg.normalize "encrypt" algorithm with
  | .error e => .rejected e
  | .ok normalizedAlgorithm =>
    if normalizedAlgorithm.name ≠ key.algorithm.name then
      .rejected (.InvalidAccessError "Algorithm does not match key")
    else if ¬ key.usages.contains "encrypt" then
      .rejected (.InvalidAccessError "Key usages must include encrypt")
    else
      executorSettle (p.encrypt (.raw algorithm) key data)

/-- SubtleCrypto.decrypt (lines 63-84): same shape as encrypt; the provider
decrypt method receives the caller's original `algorithm` (line 81). -/
def SubtleCrypto.decrypt (reg : Registry) (p : Provider)
    (algorithm : AlgDescriptor) (key : CryptoKey) (data : Bytes) :
    Promise Bytes :=
  match reg.normalize "decrypt" algorithm with
  | .error e => .rejected e
  | .ok normalizedAlgorithm =>
    if normalizedAlgorithm.name ≠ key.algorithm.name then
      .rejected (.InvalidAccessError "Algorithm does not match key")
    else if ¬ key.usages.contains "decrypt" then
      .rejected (.InvalidAccessError "Key usages must include decrypt")
    else
      executorSettle (p.decrypt (.raw algorithm) key data)

/-- SubtleCrypto.sign (lines 97-119): the provider sign method receives
only the key and the copied data (line 115), no algorithm argument. -/
def SubtleCrypto.sign (reg : Registry) (p : Provider)
    (algorithm : AlgDescriptor) (key : CryptoKey) (data : Bytes) :
    Promise Bytes :=
  match reg.normalize "sign" algorithm with
  | .error e => .rejected e
  | .ok normalizedAlgorithm =>
    if normalizedAlgorithm.name ≠ key.algorithm.name then
      .rejected (.InvalidAccessError "Algorithm does not match key")
    else if ¬ key.usages.contains "sign" then
      .rejected (.InvalidAccessError "Key usages must include sign")
    else
      executorSettle (p.sign key data)

/-- SubtleCrypto.verify (lines 133-156): the provider verify method
receives the key, the copied signature and the copied data (line 153). -/
def SubtleCrypto.verify (reg : Registry) (p : Provider)
    (alg : AlgDescriptor) (key : CryptoKey) (signature : Bytes)
    (data : Bytes) : Promise Bool :=
  match reg.normalize "verify" alg with
  | .error e => .rejected e
  | .ok normalizedAlgorithm =>
    if normalizedAlgorithm.name ≠ key.algorithm.name then
      .rejected (.InvalidAccessError "Algorithm does not match key")
    else if ¬ key.usages.contains "verify" then
      .rejected (.InvalidAccessError "Key usages must include verify")
    else
      executorSettle (p.verify key signature data)

/-- SubtleCrypto.digest (lines 168-185): normalize for digest, then call
the provider digest method with the caller's original `algorithm`
(line 179) inside a try/catch that rejects on throw. -/
def SubtleCrypto.digest (reg : Registry) (p : Provider)
    (algorithm : AlgDescriptor) (data : Bytes) : Promise Bytes :=
  match reg.normalize "digest" algorithm with
  | .error e => .rejected e
  | .ok _normalizedAlgorithm =>
    executorSettle (p.digest (.raw algorithm) data)

/-- SubtleCrypto.generateKey (lines 198-232): normalize for generateKey,
call the provider generateKey with the caller's original `algorithm`
(line 207); if the result is a single CryptoKey of secret or private type
with missing or empty usages, or a CryptoKeyPair whose private key has
missing or empty usages, throw SyntaxError (rejecting the promise);
otherwise resolve with the provider's result unchanged. -/
def SubtleCrypto.generateKey (reg : Registry) (p : Provider)
    (algorithm : AlgDescriptor) (extractable : Bool)
    (keyUsages : List String) : Promise GenResult :=
  match reg.normalize "generateKey" algorithm with
  | .error e => .rejected e
  | .ok _normalizedAlgorithm =>
    match p.generateKey algorithm extractable keyUsages with
    | .thrown e => .rejected e
    | .ret result =>
      match result with
      | .key k =>
        if (k.type = "secret" ∨ k.type = "private") ∧ k.usages.length = 0 then
          .rejected .SyntaxError
        else
          .resolved result
      | .pair kp =>
        if kp.privateKey.usages.length = 0 then
          .rejected .SyntaxError
        else
          .resolved result

/-- SubtleCrypto.deriveKey (lines 246-248): the body is exactly
`return new Promise()`, which throws a TypeError synchronously. -/
def SubtleCrypto.deriveKey (_algorithm : AlgDescriptor) (_baseKey : CryptoKey)
    (_derivedKeyType : AlgDescriptor) (_extractable : Bool)
    (_keyUsages : List String) : JsOutcome (Promise CryptoKey) :=
  newPromiseNoExecutor CryptoKey

/-- SubtleCrypto.deriveBits (lines 261-263): `return new Promise()`. -/
def SubtleCrypto.deriveBits (_algorithm : AlgDescriptor) (_baseKey : CryptoKey)
    (_length : Nat) : JsOutcome (Promise Bytes) :=
  newPromiseNoExecutor Bytes

/-- SubtleCrypto.unwrapKey (lines 453-455): `return new Promise()`. -/
def SubtleCrypto.unwrapKey (_format : String) (_wrappedKey : Bytes)
    (_unwrappingKey : CryptoKey) (_unwrapAlgorithm : AlgDescriptor)
    (_unwrappedKeyAlgorithm : AlgDescriptor) (_extractable : Bool)
    (_keyUsages : List String) : JsOutcome (Promise CryptoKey) :=
  newPromiseNoExecutor CryptoKey

/-- The jwk branch of importKey (lines 294-300): construct a JsonWebKey
from keyData (the constructor may throw; a throw inside the executor
rejects the promise), rebind keyData to the constructed instance, then
throw TypeError if the rebound keyData is not `instanceof JsonWebKey`. -/
def importKeyCoerceJwk (jwkConstruct : KeyData → JsOutcome JsonWebKey)
    (keyData : KeyData) : JsOutcome KeyData :=
  match jwkConstruct keyData with
  | .thrown e => .thrown e
  | .ret j =>
    let keyData := KeyData.jwkRecord j
    if ¬ keyData.isJsonWebKey then
      .thrown (.TypeError "key is not a JSON Web Key")
    else
      .ret keyData

/-- The raw-byte-format branch of importKey (lines 286-292): for the
formats raw, pkcs8 and spki, throw TypeError if keyData is a JsonWebKey
instance, otherwise copy the bytes with `keyData.slice()`, which itself
throws TypeError on a plain object with no slice method; other formats
leave keyData untouched. -/
def importKeyRawStep (format : String) (keyData : KeyData) :
    JsOutcome KeyData :=
  if format = "raw" ∨ format = "pkcs8" ∨ format = "spki" then
    match keyData with
    | .jwkRecord _ => .thrown (.TypeError "")
    | .buf b => .ret (.buf b)
    | .plainObj => .thrown (.TypeError "keyData.slice is not a function")
  else
    .ret keyData

/-- SubtleCrypto.importKey (lines 278-320): normalize for importKey; run
the raw-byte-format branch, then for the jwk format coerce keyData via
the JsonWebKey constructor; then call the provider importKey with the
caller's original `algorithm` (line 304); throw SyntaxError when the
provider result is a secret or private key with missing or empty usages;
finally overwrite the result's `extractable` with the caller's flag and
its `usages` with the normalized caller-supplied usages, and resolve. -/
def SubtleCrypto.importKey (reg : Registry) (p : Provider)
    (jwkConstruct : KeyData → JsOutcome JsonWebKey)
    (format : String) (keyData : KeyData) (algorithm : AlgDescriptor)
    (extractable : Bool) (keyUsages : List String) : Promise CryptoKey :=
  match reg.normalize "importKey" algorithm with
  | .error e => .rejected e
  | .ok _normalizedAlgorithm =>
    match importKeyRawStep format keyData with
    | .thrown e => .rejected e
    | .ret keyData =>
      match (if format = "jwk" then importKeyCoerceJwk jwkConstruct keyData
             else .ret keyData) with
      | .thrown e => .rejected e
      | .ret keyData =>
        match p.importKey format keyData algorithm extractable keyUsages with
        | .thrown e => .rejected e
        | .ret result =>
          if (result.type = "secret" ∨ result.type = "private") ∧
              result.usages.length = 0 then
            .rejected .SyntaxError
          else
            .resolved { result with
                        extractable := .bool extractable,
                        usages := normalizeKeyUsages keyUsages }

/-- SubtleCrypto.exportKey (lines 332-352): inside the executor, first
throw NotSupportedError when `supportedAlgorithms['exportKey']` has no
entry for the key's algorithm name (line 337), then throw
InvalidAccessError when `key.extractable === false` (strict equality,
line 341), otherwise call `key.algorithm.exportKey(format, key)` and
resolve with its result. -/
def SubtleCrypto.exportKey (reg : Registry) (p : Provider)
    (format : String) (key : CryptoKey) : Promise ExportResult :=
  if ¬ reg.exportKeyRegistered key.algorithm.name then
    .rejected (.NotSupportedError key.algorithm.name)
  else if key.extractable = JsVal.bool false then
    .rejected (.InvalidAccessError "Key is not extractable")
  else
    match p.exportKey format key with
    | .thrown e => .rejected e
    | .ret r => .resolved r

/-- The first normalization step of wrapKey (lines 369-377): normalize
`wrapAlgorithm` against the wrapKey operation; if that yields an error,
retry against the encrypt operation; the result of the retry (success or
error) is what the rest of the method sees. -/
def wrapKeyNormalize (reg : Registry) (wrapAlgorithm : AlgDescriptor) :
    Except JsError NormalizedAlgorithm :=
  match reg.normalize "wrapKey" wrapAlgorithm with
  | .error _ => reg.normalize "encrypt" wrapAlgorithm
  | .ok na => .ok na

/-- The value held by the local variable `bytes` in wrapKey's callback
(lines 407-416): it starts out undefined, is assigned the exported key for
a raw-byte format, the encoded JSON text for the jwk format, and is left
undefined for any other format. -/
inductive WrapBytes : Type where
  | undef
  | fromExport (e : ExportResult)
  | encoded (b : Bytes)
deriving DecidableEq, Repr

/-- `new Uint8Array(bytes)` (lines 419 and 423): a byte buffer is copied;
`undefined` and a non-array-like object both yield an empty array. -/
def mkUint8Array : WrapBytes → Bytes
  | .undef => []
  | .fromExport (.bytes b) => b
  | .fromExport (.record _) => []
  | .encoded b => b

/-- UTF-16 code units of a string as bytes, standing in for
`new TextEncoder().encode(...)` from the external text-encoding module. -/
def encodeText (s : String) : Bytes :=
  s.toList.map Char.toNat

/-- A concrete stand-in for `JSON.stringify(exportedKey)` (line 414) from
the host JSON object: a canonical text rendering of the export result. -/
def jsonStringifyExport : ExportResult → String
  | .bytes b => String.intercalate "," (b.map toString)
  | .record j =>
      j.kty ++ "." ++ j.k ++ "." ++ j.alg ++ "." ++ toString j.ext ++ "." ++
        String.intercalate "," j.key_ops

/-- SubtleCrypto.wrapKey (lines 366-436): resolve the algorithm with the
wrapKey-then-encrypt fallback, rejecting with the surviving error; inside
the executor (whose try/catch turns synchronous throws into rejections)
check the wrapping-key name match, the wrapKey usage, the export
registration for the wrapped key's algorithm, and its extractability; then
chain `this.exportKey(format, key).then(cb).then(resolve)` with no
rejection handler: a rejected export, a throw inside the callback, or a
rejected provider promise leaves the outer promise pending.  The callback
serializes the exported key according to the format (leaving `bytes`
undefined for an unknown format) and invokes the normalized record's
wrapKey method if present, else its encrypt method, passing the caller's
original `wrapAlgorithm` and `new Uint8Array(bytes)`; if neither method is
present it rejects with NotSupportedError. -/
def SubtleCrypto.wrapKey (reg : Registry) (p : Provider) (format : String)
    (key : CryptoKey) (wrappingKey : CryptoKey)
    (wrapAlgorithm : AlgDescriptor) : Promise Bytes :=
  match wrapKeyNormalize reg wrapAlgorithm with
  | .error e => .rejected e
  | .ok normalizedAlgorithm =>
    if normalizedAlgorithm.name ≠ wrappingKey.algorithm.name then
      .rejected (.InvalidAccessError
        "NormalizedAlgorthm name must be same as wrappingKey algorithm name")
    else if ¬ wrappingKey.usages.contains "wrapKey" then
      .rejected (.InvalidAccessError "Wrapping key usages must include wrapKey")
    else if ¬ reg.exportKeyRegistered key.algorithm.name then
      .rejected (.NotSupportedError key.algorithm.name)
    else if key.extractable = JsVal.bool false then
      .rejected (.InvalidAccessError "Key is not extractable")
    else
      match SubtleCrypto.exportKey reg p format key with
      | .rejected _ => .pending
      | .pending => .pending
      | .resolved exportedKey =>
        let bytes : WrapBytes :=
          if format = "raw" ∨ format = "pkcs8" ∨ format = "spki" then
            .fromExport exportedKey
          else if format = "jwk" then
            .encoded (encodeText (jsonStringifyExport exportedKey))
          else
            .undef
        if normalizedAlgorithm.hasWrapKey then
          wrapThenSettle
            (p.wrapKey (.raw wrapAlgorithm) wrappingKey (mkUint8Array bytes))
        else if normalizedAlgorithm.hasEncrypt then
          wrapThenSettle
            (p.encrypt (.raw wrapAlgorithm) wrappingKey (mkUint8Array bytes))
        else
          .rejected (.NotSupportedError normalizedAlgorithm.name)

/-- A provider stub whose every operation throws; test fixtures override
the operations a scenario exercises. -/
def stubProvider : Provider :=
  { encrypt := fun _ _ _ => .thrown (.TypeError "stub")
    decrypt := fun _ _ _ => .thrown (.TypeError "stub")
    sign := fun _ _ => .thrown (.TypeError "stub")
    verify := fun _ _ _ => .thrown (.TypeError "stub")
    digest := fun _ _ => .thrown (.TypeError "stub")
    generateKey := fun _ _ _ => .thrown (.TypeError "stub")
    importKey := fun _ _ _ _ _ => .thrown (.TypeError "stub")
    exportKey := fun _ _ => .thrown (.TypeError "stub")
    wrapKey := fun _ _ _ => .thrown (.TypeError "stub") }

/-- The canonical AES-GCM normalized record used by the fixtures: no
dedicated wrapKey method, an encrypt method present. -/
def aesGcm : NormalizedAlgorithm :=
  { name := "AES-GCM", hasWrapKey := false, hasEncrypt := true }

/-- A fixture registry: every operation normalizes the descriptor names
"AES-GCM" and "aes-gcm" to the canonical `aesGcm` record and fails on any
other name; only "AES-GCM" has a registered export capability. -/
def aesReg : Registry :=
  { normalize := fun _op d =>
      if d.name = "AES-GCM" ∨ d.name = "aes-gcm" then .ok aesGcm
      else .error (.NotSupportedError d.name)
    exportKeyRegistered := fun n => n == "AES-GCM" }

/-- A secret AES-GCM key fixture, extractable, with encrypt, decrypt and
wrapKey usages. -/
def aesKey : CryptoKey :=
  { type := "secret", extractable := .bool true, algorithm := aesGcm,
    usages := ["encrypt", "decrypt", "wrapKey"] }

/-- A non-extractable secret key fixture on the registered algorithm. -/
def lockedAesKey : CryptoKey :=
  { type := "secret", extractable := .bool false, algorithm := aesGcm,
    usages := ["encrypt"] }

/-- A normalized record for an algorithm with no registered export
capability in `aesReg`. -/
def desNorm : NormalizedAlgorithm :=
  { name := "3DES", hasWrapKey := false, hasEncrypt := true }

/-- A non-extractable secret key fixture on the unregistered algorithm. -/
def lockedDesKey : CryptoKey :=
  { type := "secret", extractable := .bool false, algorithm := desNorm,
    usages := ["encrypt"] }

/-- A secret key fixture whose extractable field is `undefined`. -/
def undefExtractKey : CryptoKey :=
  { type := "secret", extractable := .undef, algorithm := aesGcm,
    usages := ["encrypt"] }

/-- C7: for encrypt, decrypt, sign and verify, when normalization succeeds
but the normalized name differs from the name of the key's algorithm, the
promise rejects with the InvalidAccessError thrown before the provider
call; the conclusion holds for every provider, so no provider operation is
ever invoked on the mismatched call. -/
theorem C7_mismatch_rejects_before_provider (reg : Registry) (p : Provider)
    (alg : AlgDescriptor) (key : CryptoKey) (signature data : Bytes) :
    (∀ na, reg.normalize "encrypt" alg = .ok na →
      na.name ≠ key.algorithm.name →
      SubtleCrypto.encrypt reg p alg key data =
        .rejected (.InvalidAccessError "Algorithm does not match key")) ∧
    (∀ na, reg.normalize "decrypt" alg = .ok na →
      na.name ≠ key.algorithm.name →
      SubtleCrypto.decrypt reg p alg key data =
        .rejected (.InvalidAccessError "Algorithm does not match key")) ∧
    (∀ na, reg.normalize "sign" alg = .ok na →
      na.name ≠ key.algorithm.name →
      SubtleCrypto.sign reg p alg key data =
        .rejected (.InvalidAccessError "Algorithm does not match key")) ∧
    (∀ na, reg.normalize "verify" alg = .ok na →
      na.name ≠ key.algorithm.name →
      SubtleCrypto.verify reg p alg key signature data =
        .rejected (.InvalidAccessError "Algorithm does not match key")) := by
  refine ⟨?_, ?_, ?_, ?_⟩ <;> intro na hna hne <;>
    simp [SubtleCrypto.encrypt, SubtleCrypto.decrypt, SubtleCrypto.sign,
      SubtleCrypto.verify, hna, hne]

/-- C7 witness: a concrete mismatched encrypt call (an AES-GCM descriptor
against a key whose algorithm is HMAC) rejects with the mismatch error. -/
theorem C7_mismatch_witness :
    SubtleCrypto.encrypt aesReg stubProvider ⟨"AES-GCM"⟩
      { type := "secret", extractable := .bool true,
        algorithm := { name := "HMAC", hasWrapKey := false, hasEncrypt := false },
        usages := ["encrypt"] } [1, 2] =
      .rejected (.InvalidAccessError "Algorithm does not match key") :=
  (C7_mismatch_rejects_before_provider aesReg stubProvider ⟨"AES-GCM"⟩
    { type := "secret", extractable := .bool true,
      algorithm := { name := "HMAC", hasWrapKey := false, hasEncrypt := false },
      usages := ["encrypt"] } [1, 2] [1, 2]).1 aesGcm rfl (by decide)

/-- C6: wrapKey resolves its algorithm by normalizing against the wrapKey
operation first, retrying against encrypt when the first normalization
errors, and when both normalizations fail the promise rejects with the
error produced by the second (encrypt) normalization. -/
theorem C6_wrapKey_normalization_fallback (reg : Registry) (p : Provider)
    (format : String) (key wrappingKey : CryptoKey) (walg : AlgDescriptor) :
    (∀ na, reg.normalize "wrapKey" walg = .ok na →
        wrapKeyNormalize reg walg = .ok na) ∧
    (∀ e1, reg.normalize "wrapKey" walg = .error e1 →
        wrapKeyNormalize reg walg = reg.normalize "encrypt" walg) ∧
    (∀ e1 e2, reg.normalize "wrapKey" walg = .error e1 →
        reg.normalize "encrypt" walg = .error e2 →
        SubtleCrypto.wrapKey reg p format key wrappingKey walg =
          .rejected e2) := by
  refine ⟨?_, ?_, ?_⟩
  · intro na hna
    simp [wrapKeyNormalize, hna]
  · intro e1 h1
    simp [wrapKeyNormalize, h1]
  · intro e1 e2 h1 h2
    simp [SubtleCrypto.wrapKey, wrapKeyNormalize, h1, h2]

/-- C6 witness: a descriptor unknown to the fixture registry fails both
normalizations and wrapKey rejects with the second NotSupportedError. -/
theorem C6_wrapKey_fallback_witness :
    SubtleCrypto.wrapKey aesReg stubProvider "raw" aesKey aesKey ⟨"3DES"⟩ =
      .rejected (.NotSupportedError "3DES") :=
  (C6_wrapKey_normalization_fallback aesReg stubProvider "raw" aesKey aesKey
    ⟨"3DES"⟩).2.2 (.NotSupportedError "3DES") (.NotSupportedError "3DES")
    rfl rfl

/-- C8: the non-extractability rejection fires only on the strict boolean
`false`; for a key whose extractable field is any other value (undefined,
null, a number, a string, or true), given the algorithm has a registered
export capability, the check passes and the provider export routine is
invoked and decides the outcome. -/
theorem C8_export_strict_false_check (reg : Registry) (p : Provider)
    (format : String) (key : CryptoKey)
    (hreg : reg.exportKeyRegistered key.algorithm.name = true)
    (hext : key.extractable ≠ JsVal.bool false) :
    SubtleCrypto.exportKey reg p format key =
      (match p.exportKey format key with
       | .thrown e => .rejected e
       | .ret r => .resolved r) := by
  simp [SubtleCrypto.exportKey, hreg, hext]

/-- C8 witness: a key whose extractable field is `undefined` reaches the
provider export, which here throws the stub error that the promise then
rejects with — the extractability rejection does not fire. -/
theorem C8_export_strict_false_witness :
    SubtleCrypto.exportKey aesReg stubProvider "raw" undefExtractKey =
      .rejected (.TypeError "stub") :=
  C8_export_strict_false_check aesReg stubProvider "raw" undefExtractKey
    rfl (by decide)

/-- C10: whenever the JsonWebKey construction in importKey's jwk branch
returns an instance, the subsequent `instanceof JsonWebKey` test passes
and the branch yields that instance, so the dispatcher never raises the
shape-validation TypeError of that branch. -/
theorem C10_jwk_instance_check_unreachable
    (jwkConstruct : KeyData → JsOutcome JsonWebKey) (keyData : KeyData)
    (j : JsonWebKey) (h : jwkConstruct keyData = .ret j) :
    importKeyCoerceJwk jwkConstruct keyData = .ret (.jwkRecord j) ∧
    importKeyCoerceJwk jwkConstruct keyData ≠
      .thrown (.TypeError "key is not a JSON Web Key") := by
  constructor
  · simp [importKeyCoerceJwk, h, KeyData.isJsonWebKey]
  · simp [importKeyCoerceJwk, h, KeyData.isJsonWebKey]

/-- C10 witness: a concrete constructor that builds a record from a byte
buffer makes the jwk branch return the constructed instance. -/
theorem C10_jwk_instance_witness :
    importKeyCoerceJwk
      (fun _ => .ret { kty := "oct", k := "AA", alg := "A256GCM",
                       ext := true, key_ops := ["encrypt"] })
      (.buf [1]) =
      .ret (.jwkRecord { kty := "oct", k := "AA", alg := "A256GCM",
                         ext := true, key_ops := ["encrypt"] }) :=
  (C10_jwk_instance_check_unreachable
    (fun _ => .ret { kty := "oct", k := "AA", alg := "A256GCM",
                     ext := true, key_ops := ["encrypt"] })
    (.buf [1])
    { kty := "oct", k := "AA", alg := "A256GCM",
      ext := true, key_ops := ["encrypt"] } rfl).1

/-- C3 counterexample: deriveKey on a concrete input throws a TypeError
synchronously (the Promise constructor is called without an executor) and
in particular does not return a pending promise; deriveBits and unwrapKey
behave the same way. -/
theorem C3_stub_counterexample :
    SubtleCrypto.deriveKey ⟨"PBKDF2"⟩ aesKey ⟨"AES-GCM"⟩ true ["encrypt"] =
      .thrown (.TypeError "Promise resolver undefined is not a function") ∧
    SubtleCrypto.deriveKey ⟨"PBKDF2"⟩ aesKey ⟨"AES-GCM"⟩ true ["encrypt"] ≠
      .ret .pending ∧
    SubtleCrypto.deriveBits ⟨"PBKDF2"⟩ aesKey 128 ≠ .ret .pending ∧
    SubtleCrypto.unwrapKey "raw" [1] aesKey ⟨"AES-GCM"⟩ ⟨"AES-GCM"⟩ true
      ["encrypt"] ≠ .ret .pending := by
  refine ⟨rfl, ?_, ?_, ?_⟩ <;> decide

/-- C3 amended: every call to deriveKey, deriveBits or unwrapKey fails
synchronously with the TypeError thrown by `new Promise()` when no
executor function is supplied; no promise — settled or pending — is ever
returned. -/
theorem C3_stubs_throw_synchronously (a dkt ua uka : AlgDescriptor)
    (bk uk : CryptoKey) (e : Bool) (u : List String) (f : String)
    (w : Bytes) (l : Nat) :
    SubtleCrypto.deriveKey a bk dkt e u =
      .thrown (.TypeError "Promise resolver undefined is not a function") ∧
    SubtleCrypto.deriveBits a bk l =
      .thrown (.TypeError "Promise resolver undefined is not a function") ∧
    SubtleCrypto.unwrapKey f w uk ua uka e u =
      .thrown (.TypeError "Promise resolver undefined is not a function") :=
  ⟨rfl, rfl, rfl⟩

/-- C2 counterexample: a non-extractable key on an algorithm with no
registered export capability is rejected with NotSupportedError — the
registration check at line 337 runs before the extractability check at
line 341 — not with the InvalidAccessError the claim requires. -/
theorem C2_registration_check_first_counterexample :
    lockedDesKey.extractable = JsVal.bool false ∧
    SubtleCrypto.exportKey aesReg stubProvider "raw" lockedDesKey =
      .rejected (.NotSupportedError "3DES") ∧
    SubtleCrypto.exportKey aesReg stubProvider "raw" lockedDesKey ≠
      .rejected (.InvalidAccessError "Key is not extractable") := by
  refine ⟨rfl, rfl, by decide⟩

/-- C2 amended: for a key with extractable strictly false, exportKey
rejects with InvalidAccessError when the key's algorithm has a registered
export capability, and with NotSupportedError for the algorithm name when
it does not; in both cases the conclusion holds for every provider, so the
provider export routine is never invoked. -/
theorem C2_export_nonextractable (reg : Registry) (p : Provider)
    (format : String) (key : CryptoKey)
    (hext : key.extractable = JsVal.bool false) :
    (reg.exportKeyRegistered key.algorithm.name = true →
      SubtleCrypto.exportKey reg p format key =
        .rejected (.InvalidAccessError "Key is not extractable")) ∧
    (reg.exportKeyRegistered key.algorithm.name = false →
      SubtleCrypto.exportKey reg p format key =
        .rejected (.NotSupportedError key.algorithm.name)) := by
  constructor <;> intro h <;> simp [SubtleCrypto.exportKey, h, hext]

/-- C2 witness: the registered-algorithm half at a concrete input — a
locked key on the registered AES-GCM algorithm rejects with the
extractability InvalidAccessError. -/
theorem C2_export_nonextractable_witness :
    SubtleCrypto.exportKey aesReg stubProvider "raw" lockedAesKey =
      .rejected (.InvalidAccessError "Key is not extractable") :=
  (C2_export_nonextractable aesReg stubProvider "raw" lockedAesKey rfl).1 rfl

/-- The caller's loose descriptor spelt in lower case; the fixture
registry normalizes it to the canonical upper-case `aesGcm` record. -/
def lowerAesDescriptor : AlgDescriptor := ⟨"aes-gcm"⟩

/-- A provider whose encrypt operation reveals which kind of algorithm
argument it received: it resolves with the byte 0 when handed a raw
caller descriptor and with the byte 1 when handed a normalized record. -/
def discriminatingProvider : Provider :=
  { stubProvider with
    encrypt := fun a _ _ =>
      match a with
      | .raw _ => .ret (.resolved [0])
      | .canon _ => .ret (.resolved [1]) }

/-- C1 counterexample: a fully validated encrypt call (normalization
succeeds, names match, usage present) hands the provider the caller's
original lower-case descriptor, observed as the resolved byte 0; had it
received the normalized record the result would have been the byte 1. -/
theorem C1_original_descriptor_counterexample :
    aesReg.normalize "encrypt" lowerAesDescriptor = Except.ok aesGcm ∧
    aesGcm.name = aesKey.algorithm.name ∧
    aesKey.usages.contains "encrypt" = true ∧
    SubtleCrypto.encrypt aesReg discriminatingProvider lowerAesDescriptor
      aesKey [7] = .resolved [0] ∧
    executorSettle (discriminatingProvider.encrypt (.canon aesGcm) aesKey [7])
      = .resolved [1] ∧
    SubtleCrypto.encrypt aesReg discriminatingProvider lowerAesDescriptor
        aesKey [7] ≠
      executorSettle
        (discriminatingProvider.encrypt (.canon aesGcm) aesKey [7]) := by
  refine ⟨rfl, rfl, rfl, rfl, rfl, by decide⟩

/-- C1 amended: for every validated encrypt, decrypt, sign or verify call,
the provider operation invoked is the method of the normalized record, but
its algorithm argument is the caller's original loosely-typed descriptor
(encrypt, decrypt) or absent altogether (sign, verify), alongside the key
and the copied input bytes. -/
theorem C1_provider_receives_original_descriptor (reg : Registry)
    (p : Provider) (alg : AlgDescriptor) (key : CryptoKey)
    (signature data : Bytes) :
    (∀ na, reg.normalize "encrypt" alg = .ok na →
      na.name = key.algorithm.name → key.usages.contains "encrypt" = true →
      SubtleCrypto.encrypt reg p alg key data =
        executorSettle (p.encrypt (.raw alg) key data)) ∧
    (∀ na, reg.normalize "decrypt" alg = .ok na →
      na.name = key.algorithm.name → key.usages.contains "decrypt" = true →
      SubtleCrypto.decrypt reg p alg key data =
        executorSettle (p.decrypt (.raw alg) key data)) ∧
    (∀ na, reg.normalize "sign" alg = .ok na →
      na.name = key.algorithm.name → key.usages.contains "sign" = true →
      SubtleCrypto.sign reg p alg key data =
        executorSettle (p.sign key data)) ∧
    (∀ na, reg.normalize "verify" alg = .ok na →
      na.name = key.algorithm.name → key.usages.contains "verify" = true →
      SubtleCrypto.verify reg p alg key signature data =
        executorSettle (p.verify key signature data)) := by
  refine ⟨?_, ?_, ?_, ?_⟩ <;> intro na hna hname husage <;>
    simp at husage <;>
    simp [SubtleCrypto.encrypt, SubtleCrypto.decrypt, SubtleCrypto.sign,
      SubtleCrypto.verify, hna, hname, husage]

/-- C1 witness: the amended statement at the counterexample input — the
validated encrypt call settles exactly as the provider call on the raw
caller descriptor does. -/
theorem C1_provider_receives_original_witness :
    SubtleCrypto.encrypt aesReg discriminatingProvider lowerAesDescriptor
      aesKey [7] =
      executorSettle
        (discriminatingProvider.encrypt (.raw lowerAesDescriptor)
          aesKey [7]) :=
  (C1_provider_receives_original_descriptor aesReg discriminatingProvider
    lowerAesDescriptor aesKey [7] [7]).1 aesGcm rfl rfl rfl

/-- A provider whose exportKey succeeds with fixed bytes and whose encrypt
echoes the byte payload it was handed, so the payload of the wrap step is
observable in the result. -/
def echoWrapProvider : Provider :=
  { stubProvider with
    exportKey := fun _ _ => .ret (.bytes [9, 9])
    encrypt := fun _ _ data => .ret (.resolved data) }

/-- C9: in wrapKey, when the format is none of raw, pkcs8, spki or jwk and
the export phase resolves, the serialization leaves the byte variable
undefined, and the provider wrapKey method (or, absent one, its encrypt
method) is invoked with `new Uint8Array(undefined)`, the empty byte
sequence — the call does not reject with a format error. -/
theorem C9_unknown_format_wraps_empty_bytes (reg : Registry) (p : Provider)
    (format : String) (key wrappingKey : CryptoKey) (walg : AlgDescriptor)
    (na : NormalizedAlgorithm) (er : ExportResult)
    (hfmt1 : format ≠ "raw") (hfmt2 : format ≠ "pkcs8")
    (hfmt3 : format ≠ "spki") (hfmt4 : format ≠ "jwk")
    (hnorm : wrapKeyNormalize reg walg = .ok na)
    (hname : na.name = wrappingKey.algorithm.name)
    (husage : wrappingKey.usages.contains "wrapKey" = true)
    (hexp : reg.exportKeyRegistered key.algorithm.name = true)
    (hext : key.extractable ≠ JsVal.bool false)
    (hprov : p.exportKey format key = .ret er) :
    (na.hasWrapKey = true →
      SubtleCrypto.wrapKey reg p format key wrappingKey walg =
        wrapThenSettle (p.wrapKey (.raw walg) wrappingKey [])) ∧
    (na.hasWrapKey = false → na.hasEncrypt = true →
      SubtleCrypto.wrapKey reg p format key wrappingKey walg =
        wrapThenSettle (p.encrypt (.raw walg) wrappingKey [])) := by
  have hexport : SubtleCrypto.exportKey reg p format key = .resolved er := by
    simp [SubtleCrypto.exportKey, hexp, hext, hprov]
  simp at husage
  constructor
  · intro hw
    simp [SubtleCrypto.wrapKey, hnorm, hname, husage, hexp, hext, hexport,
      hfmt1, hfmt2, hfmt3, hfmt4, hw, mkUint8Array]
  · intro hw he
    simp [SubtleCrypto.wrapKey, hnorm, hname, husage, hexp, hext, hexport,
      hfmt1, hfmt2, hfmt3, hfmt4, hw, he, mkUint8Array]

/-- C9 witness: wrapping with the unknown format "foo" under a provider
whose encrypt echoes its payload resolves with the empty byte sequence:
the provider encrypt ran and received no bytes at all, even though the
exported key had bytes. -/
theorem C9_unknown_format_witness :
    SubtleCrypto.wrapKey aesReg echoWrapProvider "foo" aesKey aesKey
      ⟨"AES-GCM"⟩ = .resolved [] :=
  (C9_unknown_format_wraps_empty_bytes aesReg echoWrapProvider "foo" aesKey
    aesKey ⟨"AES-GCM"⟩ aesGcm (.bytes [9, 9]) (by decide) (by decide)
    (by decide) (by decide) rfl rfl rfl rfl (by decide) rfl).2 rfl rfl

/-- A provider whose importKey ignores its arguments and returns a secret
key carrying the encrypt usage, as a provider that fills usages itself
may. -/
def fixedUsageImportProvider : Provider :=
  { stubProvider with
    importKey := fun _ _ _ _ _ => .ret
      { type := "secret", extractable := .bool true, algorithm := aesGcm,
        usages := ["encrypt"] } }

/-- A JsonWebKey constructor stub for calls that never reach the jwk
branch. -/
def stubJwkConstruct : KeyData → JsOutcome JsonWebKey :=
  fun _ => .thrown (.TypeError "stub")

/-- C4 counterexample: an importKey call whose provider returns a secret
key with a non-empty usage list passes the empty-usage check, after which
the dispatcher overwrites the usages with the normalized caller-supplied
list — here the unrecognized usage name "bogus", which normalizes to the
empty set — so the call resolves with a secret key whose usage set is
empty instead of rejecting with SyntaxError. -/
theorem C4_empty_usages_counterexample :
    SubtleCrypto.importKey aesReg fixedUsageImportProvider stubJwkConstruct
      "raw" (.buf [1, 2]) ⟨"AES-GCM"⟩ true ["bogus"] =
      .resolved { type := "secret", extractable := .bool true,
                  algorithm := aesGcm, usages := [] } := by
  rfl

/-- C4 amended: generateKey enforces the invariant as claimed — a resolved
single key of secret or private type, or the private half of a resolved
pair, has non-empty usages.  importKey checks non-emptiness of the usages
the provider set, but then overwrites them: every key importKey resolves
with carries the caller-supplied usage list filtered to recognized usage
names and deduplicated, which may be empty. -/
theorem C4_usage_invariants (reg : Registry) (p : Provider)
    (ctor : KeyData → JsOutcome JsonWebKey) (format : String)
    (keyData : KeyData) (alg : AlgDescriptor) (ext : Bool)
    (usages : List String) :
    (∀ k, SubtleCrypto.generateKey reg p alg ext usages =
        .resolved (.key k) → k.type = "secret" ∨ k.type = "private" →
        k.usages ≠ []) ∧
    (∀ kp, SubtleCrypto.generateKey reg p alg ext usages =
        .resolved (.pair kp) → kp.privateKey.usages ≠ []) ∧
    (∀ k, SubtleCrypto.importKey reg p ctor format keyData alg ext usages =
        .resolved k → k.usages = normalizeKeyUsages usages) := by
  refine ⟨?_, ?_, ?_⟩
  · intro k h htype hnil
    unfold SubtleCrypto.generateKey at h
    split at h
    · exact Promise.noConfusion h
    · split at h
      · exact Promise.noConfusion h
      · split at h
        · split at h
          · exact Promise.noConfusion h
          · next hcond =>
              simp only [Promise.resolved.injEq, GenResult.key.injEq] at h
              subst h
              exact hcond ⟨htype, by simp [hnil]⟩
        · split at h
          · exact Promise.noConfusion h
          · simp only [Promise.resolved.injEq] at h
            exact GenResult.noConfusion h
  · intro kp h hnil
    unfold SubtleCrypto.generateKey at h
    split at h
    · exact Promise.noConfusion h
    · split at h
      · exact Promise.noConfusion h
      · split at h
        · split at h
          · exact Promise.noConfusion h
          · simp only [Promise.resolved.injEq] at h
            exact GenResult.noConfusion h
        · next hcond =>
            split at h
            · exact Promise.noConfusion h
            · next hcond2 =>
                simp only [Promise.resolved.injEq, GenResult.pair.injEq] at h
                subst h
                exact hcond2 (by simp [hnil])
  · intro k h
    unfold SubtleCrypto.importKey at h
    split at h
    · exact Promise.noConfusion h
    · split at h
      · exact Promise.noConfusion h
      · split at h
        · exact Promise.noConfusion h
        · split at h
          · exact Promise.noConfusion h
          · split at h
            · exact Promise.noConfusion h
            · simp only [Promise.resolved.injEq] at h
              subst h
              rfl

/-- C4 witness: the importKey clause of the amended statement at the
counterexample input — the resolved key's usage set is exactly the
normalization of the caller's list, the empty set. -/
theorem C4_usage_invariants_witness :
    ({ type := "secret", extractable := JsVal.bool true, algorithm := aesGcm,
       usages := [] } : CryptoKey).usages = normalizeKeyUsages ["bogus"] :=
  (C4_usage_invariants aesReg fixedUsageImportProvider stubJwkConstruct
    "raw" (.buf [1, 2]) ⟨"AES-GCM"⟩ true ["bogus"]).2.2
    { type := "secret", extractable := JsVal.bool true, algorithm := aesGcm,
      usages := [] } rfl

/-- A provider whose exportKey throws, standing for any provider error
raised during wrapKey's asynchronous phase. -/
def failingExportProvider : Provider :=
  { stubProvider with
    exportKey := fun _ _ => .thrown (.TypeError "provider export failed") }

/-- C5: at a fully validated wrapKey call whose provider export throws, the
inner exportKey promise rejects with the provider's error, but the outer
wrapKey promise — whose inner chain has no rejection handler — never
settles: the provider error is silently swallowed instead of being
forwarded, contrary to the claim and to the comment in the source that
anything going wrong rejects the promise outright. -/
theorem C5_wrapKey_pending_on_provider_error :
    failingExportProvider.exportKey "raw" aesKey =
      .thrown (.TypeError "provider export failed") ∧
    SubtleCrypto.exportKey aesReg failingExportProvider "raw" aesKey =
      .rejected (.TypeError "provider export failed") ∧
    SubtleCrypto.wrapKey aesReg failingExportProvider "raw" aesKey aesKey
      ⟨"AES-GCM"⟩ = .pending :=
  ⟨rfl, rfl, rfl⟩
